import Mathlib

/-!
# shipperctl `chart render`: a shallow embedding of the command glue

Source files embedded here:

* `cmd/shipperctl/cmd/chart/render.go`  (`renderChart`, `populateFromFlags`, `chartSpec`,
  `render`, `newChartRenderConfig`, `populateFormRelease`, `populateFromApp`)
* `cmd/shipperctl/cmd/chart/app.go`     (`renderChartFromApp`)
* `cmd/shipperctl/cmd/chart/release.go` (`renderChartFromRel`)

The package-level variables of the Go package are the fields of `World`; every function
takes the world it starts in and returns the world it leaves behind.  Each call that
leaves the package (kubeconfig loading, the control-plane client, the version resolver,
the chart fetcher, the renderer, the command's printer) is appended to `World.trace`, so
that "X is never invoked" is a statement about the trace.  The collaborators themselves
are the fields of `Env`: the functions below are embedded for every possible behaviour
of those collaborators.
-/

set_option autoImplicit false

namespace Shipperctl

/-! ## Data model -/

/-- A Go `error` value, identified by its message. -/
abbrev GoError := String

/-- The three fields of `shipper.Chart` that the command reads and writes. -/
structure Chart where
  Name : String
  Version : String
  RepoURL : String
deriving DecidableEq, Repr

/-- Modelled from the spec: the type `shipper.ChartValues` is declared outside the files
at hand; the spec calls it a "value-overrides document", kept here as that document. -/
structure ChartValues where
  doc : String
deriving DecidableEq, Repr

/-- Modelled from the spec: the value the chart fetcher hands to the renderer is declared
outside the files at hand; the spec calls it "the raw archive bytes". -/
structure HelmChart where
  archive : List Nat
deriving DecidableEq, Repr

/-- Modelled from the spec: the value the version resolver returns is declared outside the
files at hand; the spec's `ResolvedVersion` is `{name, version, downloadURL}`.  The
command reads only `Version`. -/
structure ChartVersion where
  Name : String
  Version : String
  URL : String
deriving DecidableEq, Repr

/-- The Go struct `ChartRenderConfig`; `ChartValues` is a pointer there, so it may be nil. -/
structure ChartRenderConfig where
  ChartSpec : Chart
  ChartValues : Option ChartValues
  Namespace : String
  ReleaseName : String
deriving DecidableEq, Repr

/-- The part of `shipper.ReleaseEnvironment` read by the command
(`Spec.Template` of an Application, `Spec.Environment` of a Release). -/
structure ReleaseEnvironment where
  Chart : Chart
  Values : Option ChartValues
deriving DecidableEq, Repr

structure ApplicationSpec where
  Template : ReleaseEnvironment
deriving DecidableEq, Repr

structure Application where
  Spec : ApplicationSpec
deriving DecidableEq, Repr

structure ReleaseSpec where
  Environment : ReleaseEnvironment
deriving DecidableEq, Repr

structure Release where
  Spec : ReleaseSpec
deriving DecidableEq, Repr

/-! ## Collaborators outside the package -/

/-- The loaded kubeconfig; the command only calls `Namespace()`, whose Go result is
`(namespace, _, err)`: both components are kept, as the Go assignment stores the string
even when `err` is set. -/
structure KubeClientConfig where
  Namespace : String × Option GoError

/-- The control-plane client; the command only calls `Applications(ns).Get(name)` and
`Releases(ns).Get(name)`. -/
structure ShipperClient where
  getApplication : String → String → Except GoError Application
  getRelease : String → String → Except GoError Release

/-- Everything the command calls outside its own package, as parameters. -/
structure Env where
  /-- The call `configurator.ClientConfig(kubeConfigFile, managementClusterContext)`. -/
  ClientConfig : String → String → Except GoError KubeClientConfig
  /-- The call `config.Load(kubeConfigFile, managementClusterContext)`; only the client is used. -/
  Load : String → String → Except GoError ShipperClient
  /-- The function returned by `newResolveChartVersionFunc()`. -/
  resolveChartVersion : Chart → Except GoError ChartVersion
  /-- The function returned by `newFetchChartFunc()`. -/
  fetchChart : Chart → Except GoError HelmChart
  /-- The call `shipperchart.Render(chart, releaseName, namespace, values)`. -/
  Render : HelmChart → String → String → Option ChartValues → Except GoError (List String)
  /-- The call `yaml.Unmarshal` of the `--values` text into a fresh `ChartValues`. -/
  Unmarshal : String → Except GoError ChartValues

/-- One call that leaves the package, with the arguments it was given. -/
inductive Event where
  | clientConfig (kubeConfigFile ctx : String)
  | clientNamespace
  | configLoad (kubeConfigFile ctx : String)
  | resolve (chartspec : Chart)
  | fetch (chartspec : Chart)
  | render (chart : HelmChart) (releaseName ns : String) (values : Option ChartValues)
  | getApplication (ns name : String)
  | getRelease (ns name : String)
  | printConfig (c : ChartRenderConfig)
  | printValues (values : Option ChartValues)
  | println (text : String)
deriving DecidableEq, Repr

/-- The package-level variables of package `chart` (the Go variable `namespace` is
`namespace_` here), and the calls made so far. -/
structure World where
  namespace_ : String
  kubeConfigFile : String
  managementClusterContext : String
  chartName : String
  chartVersion : String
  chartRepoUrl : String
  values : String
  appName : String
  releaseName : String
  trace : List Event
deriving DecidableEq, Repr

/-- Record one call at the end of the trace. -/
def World.log (w : World) (ev : Event) : World :=
  { w with trace := w.trace ++ [ev] }

/-- The calls made between world `w` and a later world `w'`. -/
def World.since (w' w : World) : List Event :=
  w'.trace.drop w.trace.length

def Event.isFetch : Event → Bool
  | .fetch _ => true
  | _ => false

def Event.isRender : Event → Bool
  | .render _ _ _ _ => true
  | _ => false

def Event.isResolve : Event → Bool
  | .resolve _ => true
  | _ => false

def Event.isPrintln : Event → Bool
  | .println _ => true
  | _ => false

/-! ## `render.go` -/

/-- Go's `strings.Join`: nothing for no elements, the element itself for one, and
otherwise the first element followed by separator and element for each further one. -/
def stringsJoin (elems : List String) (sep : String) : String :=
  match elems with
  | [] => ""
  | [e] => e
  | e :: rest => rest.foldl (fun b s => b ++ sep ++ s) e

/-- The separator literal in `render`. -/
def renderSeparator : String := "%s\n---\n"

/-- The chart spec `chartSpec` builds from the three flags. -/
def flagsChart (w : World) : Chart :=
  { Name := w.chartName, Version := w.chartVersion, RepoURL := w.chartRepoUrl }

/-- `chartSpec()`: returns the chart and the error. -/
def chartSpec (env : Env) (w : World) : World × Chart × Option GoError :=
  let chartSpec : Chart :=
    { Name := w.chartName, Version := w.chartVersion, RepoURL := w.chartRepoUrl }
  let w := w.log (.resolve chartSpec)
  match env.resolveChartVersion chartSpec with
  | .error err => (w, chartSpec, some err)
  | .ok cv => (w, { chartSpec with Version := cv.Version }, none)

/-- `populateFromFlags(c)`: returns the configuration `c` points to after the call, and
the error. -/
def populateFromFlags (env : Env) (w : World) (c : ChartRenderConfig) :
    World × ChartRenderConfig × Option GoError :=
  match chartSpec env w with
  | (w, _, some err) => (w, c, some err)
  | (w, chartSpec, none) =>
    let c := { c with ChartSpec := chartSpec }
    match env.Unmarshal w.values with
    | .error err => (w, c, some err)
    | .ok chartValues =>
      let c := { c with ChartValues := some chartValues }
      let c := { c with ReleaseName := "foobar-foobar-0" }
      (w, c, none)

/-- `render(c)`: returns the text and the error. -/
def render (env : Env) (w : World) (c : ChartRenderConfig) : World × String × Option GoError :=
  let w := w.log (.fetch c.ChartSpec)
  match env.fetchChart c.ChartSpec with
  | .error err => (w, "", some err)
  | .ok chart =>
    let w := w.log (.render chart c.ReleaseName c.Namespace c.ChartValues)
    match env.Render chart c.ReleaseName c.Namespace c.ChartValues with
    | .error err => (w, "", some err)
    | .ok rendered => (w, stringsJoin rendered renderSeparator, none)

/-- The zero value `ChartRenderConfig{}`. -/
def emptyConfig : ChartRenderConfig :=
  { ChartSpec := { Name := "", Version := "", RepoURL := "" }, ChartValues := none,
    Namespace := "", ReleaseName := "" }

/-- `newChartRenderConfig()`: returns the configuration and the error. -/
def newChartRenderConfig (env : Env) (w : World) : World × ChartRenderConfig × Option GoError :=
  let c := emptyConfig
  let w := w.log (.clientConfig w.kubeConfigFile w.managementClusterContext)
  match env.ClientConfig w.kubeConfigFile w.managementClusterContext with
  | .error err => (w, c, some err)
  | .ok clientConfig =>
    if w.namespace_ = "" then
      let w := w.log .clientNamespace
      let w := { w with namespace_ := clientConfig.Namespace.1 }
      match clientConfig.Namespace.2 with
      | some err => (w, c, some err)
      | none => (w, { c with Namespace := w.namespace_ }, none)
    else
      (w, { c with Namespace := w.namespace_ }, none)

/-- `populateFormRelease(shipperClient, c)`: returns the configuration `c` points to after
the call, and the error. -/
def populateFormRelease (shipperClient : ShipperClient) (w : World) (c : ChartRenderConfig) :
    World × ChartRenderConfig × Option GoError :=
  let w := w.log (.getRelease w.namespace_ w.releaseName)
  match shipperClient.getRelease w.namespace_ w.releaseName with
  | .error err => (w, c, some err)
  | .ok rel =>
    let c := { c with ReleaseName := w.releaseName }
    let c := { c with ChartSpec := rel.Spec.Environment.Chart }
    let c := { c with ChartValues := rel.Spec.Environment.Values }
    (w, c, none)

/-- The call `fmt.Sprintf("%s-%s-%d", a, b, n)`. -/
def sprintfReleaseName (a b : String) (n : Nat) : String :=
  a ++ "-" ++ b ++ "-" ++ Nat.repr n

/-- `populateFromApp(shipperClient, c)`: returns the configuration `c` points to after the
call, and the error. -/
def populateFromApp (shipperClient : ShipperClient) (w : World) (c : ChartRenderConfig) :
    World × ChartRenderConfig × Option GoError :=
  let w := w.log (.getApplication w.namespace_ w.appName)
  match shipperClient.getApplication w.namespace_ w.appName with
  | .error err => (w, c, some err)
  | .ok app =>
    let c := { c with ReleaseName := sprintfReleaseName w.appName "foobar" 0 }
    let c := { c with ChartSpec := app.Spec.Template.Chart }
    let c := { c with ChartValues := app.Spec.Template.Values }
    (w, c, none)

/-- `renderChart(cmd, args)`: returns the error. -/
def renderChart (env : Env) (w : World) (_args : List String) : World × Option GoError :=
  match newChartRenderConfig env w with
  | (w, _, some err) => (w, some err)
  | (w, c, none) =>
    match populateFromFlags env w c with
    | (w, _, some err) => (w, some err)
    | (w, c, none) =>
      let w := w.log (.printConfig c)
      let w := w.log (.printValues c.ChartValues)
      match render env w c with
      | (w, _, some err) => (w, some err)
      | (w, rendered, none) => (w.log (.println rendered), none)

/-! ## `app.go` -/

/-- `renderChartFromApp(cmd, args)`: returns the error; `none` is the run-time panic of
`args[0]` on an empty argument list (the command is declared with `cobra.ExactArgs(1)`). -/
def renderChartFromApp (env : Env) (w : World) (args : List String) :
    Option (World × Option GoError) :=
  match args with
  | [] => none
  | arg0 :: _ =>
    let w := { w with appName := arg0 }
    match newChartRenderConfig env w with
    | (w, _, some err) => some (w, some err)
    | (w, c, none) =>
      let w := w.log (.configLoad w.kubeConfigFile w.managementClusterContext)
      match env.Load w.kubeConfigFile w.managementClusterContext with
      | .error err => some (w, some err)
      | .ok shipperClient =>
        match populateFromApp shipperClient w c with
        | (w, _, some err) => some (w, some err)
        | (w, c, none) =>
          match render env w c with
          | (w, _, some err) => some (w, some err)
          | (w, rendered, none) => some (w.log (.println rendered), none)

/-! ## `release.go` -/

/-- `renderChartFromRel(cmd, args)`: returns the error; `none` is the run-time panic of
`args[0]` on an empty argument list (the command is declared with `cobra.ExactArgs(1)`). -/
def renderChartFromRel (env : Env) (w : World) (args : List String) :
    Option (World × Option GoError) :=
  match args with
  | [] => none
  | arg0 :: _ =>
    let w := { w with releaseName := arg0 }
    match newChartRenderConfig env w with
    | (w, _, some err) => some (w, some err)
    | (w, c, none) =>
      let w := w.log (.configLoad w.kubeConfigFile w.managementClusterContext)
      match env.Load w.kubeConfigFile w.managementClusterContext with
      | .error err => some (w, some err)
      | .ok shipperClient =>
        match populateFormRelease shipperClient w c with
        | (w, _, some err) => some (w, some err)
        | (w, c, none) =>
          match render env w c with
          | (w, _, some err) => some (w, some err)
          | (w, rendered, none) => some (w.log (.println rendered), none)

/-! ## Concrete collaborators used to exercise the theorems

The repository of the spec's scenarios: package `demo` with versions 1.0.0, 1.2.0 and
2.0.0-rc.1, so that `^1.0.0` resolves to 1.2.0 and `^3.0.0` has no match. -/

def demoRepoURL : String := "https://charts.example.com"

def demoArchive : HelmChart := { archive := [31, 139, 8] }

def demoResolve (chartspec : Chart) : Except GoError ChartVersion :=
  if chartspec.Name = "demo" ∧ chartspec.Version = "^1.0.0" then
    .ok { Name := "demo", Version := "1.2.0", URL := "demo-1.2.0.tgz" }
  else
    .error "NoMatchingVersion"

def demoFetch (chartspec : Chart) : Except GoError HelmChart :=
  if chartspec.RepoURL = demoRepoURL then .ok demoArchive else .error "ArchiveUnreachable"

def demoRender (_chart : HelmChart) (releaseName ns : String) (values : Option ChartValues) :
    Except GoError (List String) :=
  match values with
  | none => .error "no values"
  | some _ => .ok ["kind: Service " ++ releaseName, "kind: Deployment " ++ ns]

def demoUnmarshal (text : String) : Except GoError ChartValues :=
  if text = "replicas: [" then .error "yaml: did not find expected node" else .ok { doc := text }

def demoApp : Application :=
  { Spec := { Template := { Chart := { Name := "demo", Version := "^1.0.0", RepoURL := demoRepoURL },
                            Values := some { doc := "replicas: 2" } } } }

def demoRel : Release :=
  { Spec := { Environment := { Chart := { Name := "demo", Version := "1.2.0", RepoURL := demoRepoURL },
                               Values := some { doc := "replicas: 3" } } } }

def demoClient : ShipperClient :=
  { getApplication := fun ns name =>
      if ns = "prod" ∧ name = "bikerental" then .ok demoApp else .error "applications not found"
    getRelease := fun ns name =>
      if ns = "prod" ∧ name = "bikerental-7abf46d4-0" then .ok demoRel
      else .error "releases not found" }

def demoEnv : Env :=
  { ClientConfig := fun _ _ => .ok { Namespace := ("prod", none) }
    Load := fun _ _ => .ok demoClient
    resolveChartVersion := demoResolve
    fetchChart := demoFetch
    Render := demoRender
    Unmarshal := demoUnmarshal }

/-- Flags `--chart-name demo --chart-version ^1.0.0 --chart-repo <demoRepoURL>
--values "replicas: 2"`, no `-n`, nothing called yet. -/
def demoWorld : World :=
  { namespace_ := "", kubeConfigFile := "", managementClusterContext := "",
    chartName := "demo", chartVersion := "^1.0.0", chartRepoUrl := demoRepoURL,
    values := "replicas: 2", appName := "", releaseName := "", trace := [] }

/-- Flags as in `demoWorld`, but with the constraint `^3.0.0`, which nothing satisfies. -/
def demoWorldNoMatch : World := { demoWorld with chartVersion := "^3.0.0" }

/-- A configuration whose chart lives in a repository the fetcher cannot reach. -/
def demoConfigUnreachable : ChartRenderConfig :=
  { ChartSpec := { Name := "demo", Version := "1.2.0", RepoURL := "https://down.example.com" },
    ChartValues := some { doc := "replicas: 2" }, Namespace := "prod", ReleaseName := "r-0" }

/-- A configuration the fetcher accepts and the renderer rejects (nil values). -/
def demoConfigNoValues : ChartRenderConfig :=
  { ChartSpec := { Name := "demo", Version := "1.2.0", RepoURL := demoRepoURL },
    ChartValues := none, Namespace := "prod", ReleaseName := "r-0" }

/-- A configuration on which fetch and rendering both succeed. -/
def demoConfig : ChartRenderConfig :=
  { ChartSpec := { Name := "demo", Version := "1.2.0", RepoURL := demoRepoURL },
    ChartValues := some { doc := "replicas: 2" }, Namespace := "prod", ReleaseName := "r-0" }

/-- The world of a lookup in namespace `prod` for an object called `nope`. -/
def demoWorldLookup : World :=
  { demoWorld with namespace_ := "prod", appName := "nope", releaseName := "nope" }

/-- The world of a lookup in namespace `prod` for the objects that exist. -/
def demoWorldFound : World :=
  { demoWorld with namespace_ := "prod", appName := "bikerental",
                   releaseName := "bikerental-7abf46d4-0" }

/-- Flags as in `demoWorld`, but with a `--values` text that does not parse. -/
def demoWorldBadValues : World := { demoWorld with values := "replicas: [" }

/-- The collaborators of `demoEnv`, with no kubeconfig to load. -/
def demoEnvNoKube : Env := { demoEnv with ClientConfig := fun _ _ => .error "no kubeconfig" }

/-- The world of `demoWorld` with the flag `-n staging`. -/
def demoWorldStaging : World := { demoWorld with namespace_ := "staging" }

/-! ## Properties stated about runs -/

/-- The property of the calls `evs` of one run that every chart spec handed to the chart
fetcher carries a version which a resolver call of that run returned. -/
def FetchedVersionsResolved (env : Env) (evs : List Event) : Prop :=
  ∀ ch, Event.fetch ch ∈ evs →
    ∃ id cv, Event.resolve id ∈ evs ∧ env.resolveChartVersion id = .ok cv ∧
      ch.Version = cv.Version

/-- Each of the documents `ds` preceded by the separator, in order. -/
def separated (sep : String) : List String → String
  | [] => ""
  | d :: ds => sep ++ d ++ separated sep ds

/-! ## Bookkeeping lemmas -/

@[simp] theorem log_trace (w : World) (ev : Event) : (w.log ev).trace = w.trace ++ [ev] := rfl

@[simp] theorem log_namespace (w : World) (ev : Event) : (w.log ev).namespace_ = w.namespace_ := rfl

@[simp] theorem log_kubeConfigFile (w : World) (ev : Event) :
    (w.log ev).kubeConfigFile = w.kubeConfigFile := rfl

@[simp] theorem log_managementClusterContext (w : World) (ev : Event) :
    (w.log ev).managementClusterContext = w.managementClusterContext := rfl

@[simp] theorem log_chartName (w : World) (ev : Event) : (w.log ev).chartName = w.chartName := rfl

@[simp] theorem log_chartVersion (w : World) (ev : Event) :
    (w.log ev).chartVersion = w.chartVersion := rfl

@[simp] theorem log_chartRepoUrl (w : World) (ev : Event) :
    (w.log ev).chartRepoUrl = w.chartRepoUrl := rfl

@[simp] theorem log_values (w : World) (ev : Event) : (w.log ev).values = w.values := rfl

@[simp] theorem log_appName (w : World) (ev : Event) : (w.log ev).appName = w.appName := rfl

@[simp] theorem log_releaseName (w : World) (ev : Event) :
    (w.log ev).releaseName = w.releaseName := rfl

/-- The three ways `render` can go, each with the world it leaves behind. -/
theorem render_cases (env : Env) (w : World) (c : ChartRenderConfig) :
    (∃ e, env.fetchChart c.ChartSpec = .error e ∧
      render env w c = (w.log (.fetch c.ChartSpec), "", some e)) ∨
    (∃ chart e, env.fetchChart c.ChartSpec = .ok chart ∧
      env.Render chart c.ReleaseName c.Namespace c.ChartValues = .error e ∧
      render env w c = ((w.log (.fetch c.ChartSpec)).log
        (.render chart c.ReleaseName c.Namespace c.ChartValues), "", some e)) ∨
    (∃ chart docs, env.fetchChart c.ChartSpec = .ok chart ∧
      env.Render chart c.ReleaseName c.Namespace c.ChartValues = .ok docs ∧
      render env w c = ((w.log (.fetch c.ChartSpec)).log
        (.render chart c.ReleaseName c.Namespace c.ChartValues),
        stringsJoin docs renderSeparator, none)) := by
  unfold render
  cases hf : env.fetchChart c.ChartSpec with
  | error e => simp
  | ok chart =>
    cases hr : env.Render chart c.ReleaseName c.Namespace c.ChartValues with
    | error e => simp [hr]
    | ok docs => simp [hr]

/-- The four ways `newChartRenderConfig` can go, each with the world it leaves behind. -/
theorem newChartRenderConfig_cases (env : Env) (w : World) :
    (∃ e, env.ClientConfig w.kubeConfigFile w.managementClusterContext = .error e ∧
      newChartRenderConfig env w =
        (w.log (.clientConfig w.kubeConfigFile w.managementClusterContext), emptyConfig, some e)) ∨
    (∃ cc, env.ClientConfig w.kubeConfigFile w.managementClusterContext = .ok cc ∧
      w.namespace_ ≠ "" ∧
      newChartRenderConfig env w =
        (w.log (.clientConfig w.kubeConfigFile w.managementClusterContext),
          { emptyConfig with Namespace := w.namespace_ }, none)) ∨
    (∃ cc e, env.ClientConfig w.kubeConfigFile w.managementClusterContext = .ok cc ∧
      w.namespace_ = "" ∧ cc.Namespace.2 = some e ∧
      newChartRenderConfig env w =
        ({ (w.log (.clientConfig w.kubeConfigFile w.managementClusterContext)).log
              .clientNamespace with namespace_ := cc.Namespace.1 }, emptyConfig, some e)) ∨
    (∃ cc, env.ClientConfig w.kubeConfigFile w.managementClusterContext = .ok cc ∧
      w.namespace_ = "" ∧ cc.Namespace.2 = none ∧
      newChartRenderConfig env w =
        ({ (w.log (.clientConfig w.kubeConfigFile w.managementClusterContext)).log
              .clientNamespace with namespace_ := cc.Namespace.1 },
          { emptyConfig with Namespace := cc.Namespace.1 }, none)) := by
  unfold newChartRenderConfig
  cases hc : env.ClientConfig w.kubeConfigFile w.managementClusterContext with
  | error e => simp [hc]
  | ok cc =>
    by_cases hn : w.namespace_ = ""
    · cases he : cc.Namespace.2 with
      | none => simp [hc, hn, he]
      | some e => simp [hc, hn, he]
    · simp [hc, hn]

/-! ## Resolution from flags -/

/-- C1: whenever the version resolver succeeds on the identity given by the flags
(`--chart-name`, `--chart-version`, `--chart-repo`) and returns `cv`, `chartSpec` returns
no error and a chart with the supplied name and repository URL whose version is
`cv.Version`, the resolved version, in place of the supplied constraint. -/
theorem chartSpec_resolved (env : Env) (w : World) (cv : ChartVersion)
    (h : env.resolveChartVersion (flagsChart w) = .ok cv) :
    (chartSpec env w).2.2 = none ∧
    (chartSpec env w).2.1.Name = w.chartName ∧
    (chartSpec env w).2.1.RepoURL = w.chartRepoUrl ∧
    (chartSpec env w).2.1.Version = cv.Version := by
  simp only [flagsChart] at h
  simp [chartSpec, h]

/-- The constraint `^1.0.0` on `demo` is replaced by the resolved `1.2.0`. -/
theorem chartSpec_resolved_witness :
    demoEnv.resolveChartVersion (flagsChart demoWorld)
        = .ok { Name := "demo", Version := "1.2.0", URL := "demo-1.2.0.tgz" } ∧
      ((chartSpec demoEnv demoWorld).2.2 = none ∧
       (chartSpec demoEnv demoWorld).2.1.Name = "demo" ∧
       (chartSpec demoEnv demoWorld).2.1.RepoURL = demoRepoURL ∧
       (chartSpec demoEnv demoWorld).2.1.Version = "1.2.0") :=
  ⟨rfl, chartSpec_resolved demoEnv demoWorld
    { Name := "demo", Version := "1.2.0", URL := "demo-1.2.0.tgz" } rfl⟩

/-- C2: when the version resolver fails with `e` on the identity given by the flags,
`chartSpec` returns `e` itself together with the chart still carrying the supplied,
unresolved version; a run of `renderChart` calls neither the chart fetcher nor the
renderer; the resolver is consulted as soon as `newChartRenderConfig` has succeeded, and
in every run in which it is consulted `renderChart` returns `e`. -/
theorem resolution_failure_propagates (env : Env) (w : World) (args : List String) (e : GoError)
    (h : env.resolveChartVersion (flagsChart w) = .error e) :
    (chartSpec env w).2 = (flagsChart w, some e) ∧
    (∀ ev ∈ (renderChart env w args).1.since w, ev.isFetch = false ∧ ev.isRender = false) ∧
    ((newChartRenderConfig env w).2.2 = none →
      Event.resolve (flagsChart w) ∈ (renderChart env w args).1.since w) ∧
    (Event.resolve (flagsChart w) ∈ (renderChart env w args).1.since w →
      (renderChart env w args).2 = some e) := by
  simp only [flagsChart] at h
  refine ⟨by simp [chartSpec, h, flagsChart], ?_⟩
  rcases newChartRenderConfig_cases env w with ⟨e0, -, h0⟩ | ⟨cc, -, -, h0⟩ | ⟨cc, e0, -, -, -, h0⟩ |
    ⟨cc, -, -, -, h0⟩ <;>
  simp [renderChart, h0, populateFromFlags, chartSpec, h, World.since, flagsChart,
    Event.isFetch, Event.isRender]

/-- The constraint `^3.0.0` has no match: the resolver is consulted, `renderChart` returns
its error. -/
theorem resolution_failure_propagates_witness :
    demoEnv.resolveChartVersion (flagsChart demoWorldNoMatch) = .error "NoMatchingVersion" ∧
    Event.resolve (flagsChart demoWorldNoMatch) ∈
      (renderChart demoEnv demoWorldNoMatch []).1.since demoWorldNoMatch ∧
    (renderChart demoEnv demoWorldNoMatch []).2 = some "NoMatchingVersion" ∧
    (chartSpec demoEnv demoWorldNoMatch).2.1.Version = "^3.0.0" :=
  ⟨rfl, by decide,
    (resolution_failure_propagates demoEnv demoWorldNoMatch [] "NoMatchingVersion" rfl).2.2.2
      (by decide),
    congrArg (fun p => p.1.Version)
      (resolution_failure_propagates demoEnv demoWorldNoMatch [] "NoMatchingVersion" rfl).1⟩

/-! ## `render` -/

/-- C3: if the chart fetcher fails on `c.ChartSpec` with `e`, `render` returns the empty
string and `e`, and the renderer is not invoked; if the fetcher succeeds and the renderer
fails with `e'`, `render` returns the empty string and `e'`; a non-empty text is returned
only with no error, after both succeeded; and `render` always returns to its caller,
having done nothing but the fetch call and, if reached, the renderer call. -/
theorem render_error_handling (env : Env) (w : World) (c : ChartRenderConfig) :
    (∀ e, env.fetchChart c.ChartSpec = .error e →
      (render env w c).2 = ("", some e) ∧
      ∀ ev ∈ (render env w c).1.since w, ev.isRender = false) ∧
    (∀ chart e', env.fetchChart c.ChartSpec = .ok chart →
      env.Render chart c.ReleaseName c.Namespace c.ChartValues = .error e' →
      (render env w c).2 = ("", some e')) ∧
    ((render env w c).2.1 ≠ "" →
      (render env w c).2.2 = none ∧
      ∃ chart docs, env.fetchChart c.ChartSpec = .ok chart ∧
        env.Render chart c.ReleaseName c.Namespace c.ChartValues = .ok docs) ∧
    ((render env w c).1 = w.log (.fetch c.ChartSpec) ∨
      ∃ chart, (render env w c).1 =
        (w.log (.fetch c.ChartSpec)).log (.render chart c.ReleaseName c.Namespace c.ChartValues)) := by
  rcases render_cases env w c with ⟨e, hf, hr⟩ | ⟨chart, e, hf, hR, hr⟩ | ⟨chart, docs, hf, hR, hr⟩
  · simp [hr, hf, World.since, Event.isRender]
  · rw [hr]
    refine ⟨?_, ?_, fun hne => absurd rfl hne, Or.inr ⟨chart, rfl⟩⟩
    · intro e' h
      rw [hf] at h
      cases h
    · intro chart' e' hc h
      rw [hf] at hc
      cases hc
      rw [hR] at h
      cases h
      rfl
  · rw [hr]
    refine ⟨?_, ?_, fun _ => ⟨rfl, chart, docs, hf, hR⟩, Or.inr ⟨chart, rfl⟩⟩
    · intro e' h
      rw [hf] at h
      cases h
    · intro chart' e' hc h
      rw [hf] at hc
      cases hc
      rw [hR] at h
      cases h

/-- An unreachable repository gives the fetcher error, nil values give the renderer
error, and the good configuration gives a non-empty text. -/
theorem render_error_handling_witness :
    (render demoEnv demoWorld demoConfigUnreachable).2 = ("", some "ArchiveUnreachable") ∧
    (render demoEnv demoWorld demoConfigNoValues).2 = ("", some "no values") ∧
    (render demoEnv demoWorld demoConfig).2.1 ≠ "" ∧
    (render demoEnv demoWorld demoConfig).2.2 = none :=
  ⟨((render_error_handling demoEnv demoWorld demoConfigUnreachable).1
      "ArchiveUnreachable" rfl).1,
    (render_error_handling demoEnv demoWorld demoConfigNoValues).2.1
      demoArchive "no values" rfl rfl,
    by decide,
    ((render_error_handling demoEnv demoWorld demoConfig).2.2.1 (by decide)).1⟩

/-! ## Lookups of Applications and Releases -/

theorem sprintfReleaseName_foobar (a : String) :
    sprintfReleaseName a "foobar" 0 = a ++ "-foobar-0" := by
  have h : "-" ++ ("foobar" ++ ("-" ++ Nat.repr 0)) = "-foobar-0" := by decide
  simp only [sprintfReleaseName, String.append_assoc, h]

theorem since_of_trace_eq {w w' : World} {l : List Event} (h : w'.trace = w.trace ++ l) :
    w'.since w = l := by
  simp [World.since, h]

/-- What `newChartRenderConfig` leaves behind: the calls `pre` it made, the package
variables other than `namespace` untouched, and on success the configuration holding
the package variable `namespace`. -/
theorem newChartRenderConfig_run (env : Env) (w : World) :
    ∃ w1 c1 r1 pre, newChartRenderConfig env w = (w1, c1, r1) ∧
      w1.trace = w.trace ++ pre ∧
      (pre = [.clientConfig w.kubeConfigFile w.managementClusterContext] ∨
        (w.namespace_ = "" ∧
          pre = [.clientConfig w.kubeConfigFile w.managementClusterContext, .clientNamespace])) ∧
      w1.kubeConfigFile = w.kubeConfigFile ∧
      w1.managementClusterContext = w.managementClusterContext ∧
      w1.chartName = w.chartName ∧ w1.chartVersion = w.chartVersion ∧
      w1.chartRepoUrl = w.chartRepoUrl ∧ w1.values = w.values ∧
      w1.appName = w.appName ∧ w1.releaseName = w.releaseName ∧
      (r1 = none → c1 = { emptyConfig with Namespace := w1.namespace_ }) := by
  rcases newChartRenderConfig_cases env w with ⟨e0, -, h0⟩ | ⟨cc, -, -, h0⟩ | ⟨cc, e0, -, hn, -, h0⟩ |
    ⟨cc, -, hn, -, h0⟩
  · exact ⟨_, _, _, _, h0, rfl, Or.inl rfl, rfl, rfl, rfl, rfl, rfl, rfl, rfl, rfl, by simp⟩
  · exact ⟨_, _, _, _, h0, rfl, Or.inl rfl, rfl, rfl, rfl, rfl, rfl, rfl, rfl, rfl, fun _ => rfl⟩
  · exact ⟨_, _, _, _, h0, by simp [World.log], Or.inr ⟨hn, rfl⟩, rfl, rfl, rfl, rfl, rfl, rfl,
      rfl, rfl, by simp⟩
  · exact ⟨_, _, _, _, h0, by simp [World.log], Or.inr ⟨hn, rfl⟩, rfl, rfl, rfl, rfl, rfl, rfl,
      rfl, rfl, fun _ => rfl⟩

/-- Every path through `renderChartFromApp`, with the calls made on it (`pre` being those
of `newChartRenderConfig`) and the error returned. -/
theorem renderChartFromApp_run (env : Env) (w : World) (name : String) :
    ∃ w1 c1 r1 pre, newChartRenderConfig env { w with appName := name } = (w1, c1, r1) ∧
      (pre = [.clientConfig w.kubeConfigFile w.managementClusterContext] ∨
        (w.namespace_ = "" ∧
          pre = [.clientConfig w.kubeConfigFile w.managementClusterContext, .clientNamespace])) ∧
      ∃ w' r, renderChartFromApp env w [name] = some (w', r) ∧
        ((∃ e, r1 = some e ∧ r = some e ∧ w'.since w = pre) ∨
         (r1 = none ∧
          ((∃ e, env.Load w.kubeConfigFile w.managementClusterContext = .error e ∧ r = some e ∧
              w'.since w = pre ++ [.configLoad w.kubeConfigFile w.managementClusterContext]) ∨
           ∃ client, env.Load w.kubeConfigFile w.managementClusterContext = .ok client ∧
            ((∃ e, client.getApplication w1.namespace_ name = .error e ∧ r = some e ∧
                w'.since w = pre ++ [.configLoad w.kubeConfigFile w.managementClusterContext,
                  .getApplication w1.namespace_ name]) ∨
             ∃ app, client.getApplication w1.namespace_ name = .ok app ∧
              ((∃ e, env.fetchChart app.Spec.Template.Chart = .error e ∧ r = some e ∧
                  w'.since w = pre ++ [.configLoad w.kubeConfigFile w.managementClusterContext,
                    .getApplication w1.namespace_ name, .fetch app.Spec.Template.Chart]) ∨
               ∃ chart, env.fetchChart app.Spec.Template.Chart = .ok chart ∧
                ((∃ e, env.Render chart (name ++ "-foobar-0") w1.namespace_
                      app.Spec.Template.Values = .error e ∧ r = some e ∧
                    w'.since w = pre ++ [.configLoad w.kubeConfigFile w.managementClusterContext,
                      .getApplication w1.namespace_ name, .fetch app.Spec.Template.Chart,
                      .render chart (name ++ "-foobar-0") w1.namespace_
                        app.Spec.Template.Values]) ∨
                 ∃ docs, env.Render chart (name ++ "-foobar-0") w1.namespace_
                      app.Spec.Template.Values = .ok docs ∧ r = none ∧
                    w'.since w = pre ++ [.configLoad w.kubeConfigFile w.managementClusterContext,
                      .getApplication w1.namespace_ name, .fetch app.Spec.Template.Chart,
                      .render chart (name ++ "-foobar-0") w1.namespace_
                        app.Spec.Template.Values,
                      .println (stringsJoin docs renderSeparator)])))))) := by
  obtain ⟨w1, c1, r1, pre, h0, htr, hpre, hk, hc, -, -, -, -, ha, -, hcfg⟩ :=
    newChartRenderConfig_run env { w with appName := name }
  have htr' : w1.trace = w.trace ++ pre := htr
  have hk' : w1.kubeConfigFile = w.kubeConfigFile := hk
  have hc' : w1.managementClusterContext = w.managementClusterContext := hc
  have ha' : w1.appName = name := ha
  refine ⟨w1, c1, r1, pre, h0, hpre, ?_⟩
  cases r1 with
  | some e0 =>
    exact ⟨w1, some e0, by simp [renderChartFromApp, h0],
      Or.inl ⟨e0, rfl, rfl, since_of_trace_eq htr'⟩⟩
  | none =>
    have hc1 := hcfg rfl
    cases hl : env.Load w.kubeConfigFile w.managementClusterContext with
    | error e =>
      exact ⟨w1.log (.configLoad w.kubeConfigFile w.managementClusterContext), some e,
        by simp [renderChartFromApp, h0, hk', hc', hl],
        Or.inr ⟨rfl, Or.inl ⟨e, rfl, rfl, since_of_trace_eq (by simp [htr'])⟩⟩⟩
    | ok client =>
      cases hg : client.getApplication w1.namespace_ name with
      | error e =>
        exact ⟨(w1.log (.configLoad w.kubeConfigFile w.managementClusterContext)).log
            (.getApplication w1.namespace_ name), some e,
          by simp [renderChartFromApp, h0, hk', hc', hl, populateFromApp, ha', hg],
          Or.inr ⟨rfl, Or.inr ⟨client, rfl, Or.inl ⟨e, hg, rfl,
            since_of_trace_eq (by simp [htr'])⟩⟩⟩⟩
      | ok app =>
        cases hf : env.fetchChart app.Spec.Template.Chart with
        | error e =>
          exact ⟨((w1.log (.configLoad w.kubeConfigFile w.managementClusterContext)).log
              (.getApplication w1.namespace_ name)).log (.fetch app.Spec.Template.Chart), some e,
            by simp [renderChartFromApp, h0, hk', hc', hl, populateFromApp, ha', hg, render, hf],
            Or.inr ⟨rfl, Or.inr ⟨client, rfl, Or.inr ⟨app, hg, Or.inl ⟨e, hf, rfl,
              since_of_trace_eq (by simp [htr'])⟩⟩⟩⟩⟩
        | ok chart =>
          cases hR : env.Render chart (name ++ "-foobar-0") w1.namespace_
              app.Spec.Template.Values with
          | error e =>
            exact ⟨(((w1.log (.configLoad w.kubeConfigFile w.managementClusterContext)).log
                (.getApplication w1.namespace_ name)).log (.fetch app.Spec.Template.Chart)).log
                (.render chart (name ++ "-foobar-0") w1.namespace_ app.Spec.Template.Values),
              some e,
              by simp [renderChartFromApp, h0, hk', hc', hl, populateFromApp, ha', hg, render, hf,
                sprintfReleaseName_foobar, hc1, hR],
              Or.inr ⟨rfl, Or.inr ⟨client, rfl, Or.inr ⟨app, hg, Or.inr ⟨chart, hf, Or.inl
                ⟨e, hR, rfl, since_of_trace_eq (by simp [htr'])⟩⟩⟩⟩⟩⟩
          | ok docs =>
            exact ⟨((((w1.log (.configLoad w.kubeConfigFile w.managementClusterContext)).log
                (.getApplication w1.namespace_ name)).log (.fetch app.Spec.Template.Chart)).log
                (.render chart (name ++ "-foobar-0") w1.namespace_ app.Spec.Template.Values)).log
                (.println (stringsJoin docs renderSeparator)),
              none,
              by simp [renderChartFromApp, h0, hk', hc', hl, populateFromApp, ha', hg, render, hf,
                sprintfReleaseName_foobar, hc1, hR],
              Or.inr ⟨rfl, Or.inr ⟨client, rfl, Or.inr ⟨app, hg, Or.inr ⟨chart, hf, Or.inr
                ⟨docs, hR, rfl, since_of_trace_eq (by simp [htr'])⟩⟩⟩⟩⟩⟩

/-- Every path through `renderChartFromRel`, with the calls made on it (`pre` being those
of `newChartRenderConfig`) and the error returned. -/
theorem renderChartFromRel_run (env : Env) (w : World) (name : String) :
    ∃ w1 c1 r1 pre, newChartRenderConfig env { w with releaseName := name } = (w1, c1, r1) ∧
      (pre = [.clientConfig w.kubeConfigFile w.managementClusterContext] ∨
        (w.namespace_ = "" ∧
          pre = [.clientConfig w.kubeConfigFile w.managementClusterContext, .clientNamespace])) ∧
      ∃ w' r, renderChartFromRel env w [name] = some (w', r) ∧
        ((∃ e, r1 = some e ∧ r = some e ∧ w'.since w = pre) ∨
         (r1 = none ∧
          ((∃ e, env.Load w.kubeConfigFile w.managementClusterContext = .error e ∧ r = some e ∧
              w'.since w = pre ++ [.configLoad w.kubeConfigFile w.managementClusterContext]) ∨
           ∃ client, env.Load w.kubeConfigFile w.managementClusterContext = .ok client ∧
            ((∃ e, client.getRelease w1.namespace_ name = .error e ∧ r = some e ∧
                w'.since w = pre ++ [.configLoad w.kubeConfigFile w.managementClusterContext,
                  .getRelease w1.namespace_ name]) ∨
             ∃ rel, client.getRelease w1.namespace_ name = .ok rel ∧
              ((∃ e, env.fetchChart rel.Spec.Environment.Chart = .error e ∧ r = some e ∧
                  w'.since w = pre ++ [.configLoad w.kubeConfigFile w.managementClusterContext,
                    .getRelease w1.namespace_ name, .fetch rel.Spec.Environment.Chart]) ∨
               ∃ chart, env.fetchChart rel.Spec.Environment.Chart = .ok chart ∧
                ((∃ e, env.Render chart name w1.namespace_
                      rel.Spec.Environment.Values = .error e ∧ r = some e ∧
                    w'.since w = pre ++ [.configLoad w.kubeConfigFile w.managementClusterContext,
                      .getRelease w1.namespace_ name, .fetch rel.Spec.Environment.Chart,
                      .render chart name w1.namespace_
                        rel.Spec.Environment.Values]) ∨
                 ∃ docs, env.Render chart name w1.namespace_
                      rel.Spec.Environment.Values = .ok docs ∧ r = none ∧
                    w'.since w = pre ++ [.configLoad w.kubeConfigFile w.managementClusterContext,
                      .getRelease w1.namespace_ name, .fetch rel.Spec.Environment.Chart,
                      .render chart name w1.namespace_
                        rel.Spec.Environment.Values,
                      .println (stringsJoin docs renderSeparator)])))))) := by
  obtain ⟨w1, c1, r1, pre, h0, htr, hpre, hk, hc, -, -, -, -, -, ha, hcfg⟩ :=
    newChartRenderConfig_run env { w with releaseName := name }
  have htr' : w1.trace = w.trace ++ pre := htr
  have hk' : w1.kubeConfigFile = w.kubeConfigFile := hk
  have hc' : w1.managementClusterContext = w.managementClusterContext := hc
  have ha' : w1.releaseName = name := ha
  refine ⟨w1, c1, r1, pre, h0, hpre, ?_⟩
  cases r1 with
  | some e0 =>
    exact ⟨w1, some e0, by simp [renderChartFromRel, h0],
      Or.inl ⟨e0, rfl, rfl, since_of_trace_eq htr'⟩⟩
  | none =>
    have hc1 := hcfg rfl
    cases hl : env.Load w.kubeConfigFile w.managementClusterContext with
    | error e =>
      exact ⟨w1.log (.configLoad w.kubeConfigFile w.managementClusterContext), some e,
        by simp [renderChartFromRel, h0, hk', hc', hl],
        Or.inr ⟨rfl, Or.inl ⟨e, rfl, rfl, since_of_trace_eq (by simp [htr'])⟩⟩⟩
    | ok client =>
      cases hg : client.getRelease w1.namespace_ name with
      | error e =>
        exact ⟨(w1.log (.configLoad w.kubeConfigFile w.managementClusterContext)).log
            (.getRelease w1.namespace_ name), some e,
          by simp [renderChartFromRel, h0, hk', hc', hl, populateFormRelease, ha', hg],
          Or.inr ⟨rfl, Or.inr ⟨client, rfl, Or.inl ⟨e, hg, rfl,
            since_of_trace_eq (by simp [htr'])⟩⟩⟩⟩
      | ok rel =>
        cases hf : env.fetchChart rel.Spec.Environment.Chart with
        | error e =>
          exact ⟨((w1.log (.configLoad w.kubeConfigFile w.managementClusterContext)).log
              (.getRelease w1.namespace_ name)).log (.fetch rel.Spec.Environment.Chart), some e,
            by simp [renderChartFromRel, h0, hk', hc', hl, populateFormRelease, ha', hg, render, hf],
            Or.inr ⟨rfl, Or.inr ⟨client, rfl, Or.inr ⟨rel, hg, Or.inl ⟨e, hf, rfl,
              since_of_trace_eq (by simp [htr'])⟩⟩⟩⟩⟩
        | ok chart =>
          cases hR : env.Render chart name w1.namespace_
              rel.Spec.Environment.Values with
          | error e =>
            exact ⟨(((w1.log (.configLoad w.kubeConfigFile w.managementClusterContext)).log
                (.getRelease w1.namespace_ name)).log (.fetch rel.Spec.Environment.Chart)).log
                (.render chart name w1.namespace_ rel.Spec.Environment.Values),
              some e,
              by simp [renderChartFromRel, h0, hk', hc', hl, populateFormRelease, ha', hg, render, hf,
                hc1, hR],
              Or.inr ⟨rfl, Or.inr ⟨client, rfl, Or.inr ⟨rel, hg, Or.inr ⟨chart, hf, Or.inl
                ⟨e, hR, rfl, since_of_trace_eq (by simp [htr'])⟩⟩⟩⟩⟩⟩
          | ok docs =>
            exact ⟨((((w1.log (.configLoad w.kubeConfigFile w.managementClusterContext)).log
                (.getRelease w1.namespace_ name)).log (.fetch rel.Spec.Environment.Chart)).log
                (.render chart name w1.namespace_ rel.Spec.Environment.Values)).log
                (.println (stringsJoin docs renderSeparator)),
              none,
              by simp [renderChartFromRel, h0, hk', hc', hl, populateFormRelease, ha', hg, render, hf,
                hc1, hR],
              Or.inr ⟨rfl, Or.inr ⟨client, rfl, Or.inr ⟨rel, hg, Or.inr ⟨chart, hf, Or.inr
                ⟨docs, hR, rfl, since_of_trace_eq (by simp [htr'])⟩⟩⟩⟩⟩⟩

/-- Every path through `renderChart`, with the calls made on it (`pre` being those of
`newChartRenderConfig`) and the error returned. -/
theorem renderChart_run (env : Env) (w : World) (args : List String) :
    ∃ w1 c1 r1 pre, newChartRenderConfig env w = (w1, c1, r1) ∧
      (pre = [.clientConfig w.kubeConfigFile w.managementClusterContext] ∨
        (w.namespace_ = "" ∧
          pre = [.clientConfig w.kubeConfigFile w.managementClusterContext, .clientNamespace])) ∧
      ∃ w' r, renderChart env w args = (w', r) ∧
        ((∃ e, r1 = some e ∧ r = some e ∧ w'.since w = pre) ∨
         (r1 = none ∧
          ((∃ e, env.resolveChartVersion (flagsChart w) = .error e ∧ r = some e ∧
              w'.since w = pre ++ [.resolve (flagsChart w)]) ∨
           ∃ cv, env.resolveChartVersion (flagsChart w) = .ok cv ∧
            ((∃ e, env.Unmarshal w.values = .error e ∧ r = some e ∧
                w'.since w = pre ++ [.resolve (flagsChart w)]) ∨
             ∃ vals c, env.Unmarshal w.values = .ok vals ∧
              c = { ChartSpec := { flagsChart w with Version := cv.Version },
                    ChartValues := some vals, Namespace := w1.namespace_,
                    ReleaseName := "foobar-foobar-0" } ∧
              ((∃ e, env.fetchChart c.ChartSpec = .error e ∧ r = some e ∧
                  w'.since w = pre ++ [.resolve (flagsChart w), .printConfig c,
                    .printValues (some vals), .fetch c.ChartSpec]) ∨
               ∃ chart, env.fetchChart c.ChartSpec = .ok chart ∧
                ((∃ e, env.Render chart "foobar-foobar-0" w1.namespace_ (some vals) = .error e ∧
                    r = some e ∧
                    w'.since w = pre ++ [.resolve (flagsChart w), .printConfig c,
                      .printValues (some vals), .fetch c.ChartSpec,
                      .render chart "foobar-foobar-0" w1.namespace_ (some vals)]) ∨
                 ∃ docs, env.Render chart "foobar-foobar-0" w1.namespace_ (some vals) = .ok docs ∧
                    r = none ∧
                    w'.since w = pre ++ [.resolve (flagsChart w), .printConfig c,
                      .printValues (some vals), .fetch c.ChartSpec,
                      .render chart "foobar-foobar-0" w1.namespace_ (some vals),
                      .println (stringsJoin docs renderSeparator)])))))) := by
  obtain ⟨w1, c1, r1, pre, h0, htr, hpre, -, -, hn, hv, hu, hvals, -, -, hcfg⟩ :=
    newChartRenderConfig_run env w
  refine ⟨w1, c1, r1, pre, h0, hpre, ?_⟩
  cases r1 with
  | some e0 =>
    exact ⟨w1, some e0, by simp [renderChart, h0], Or.inl ⟨e0, rfl, rfl, since_of_trace_eq htr⟩⟩
  | none =>
    have hc1 := hcfg rfl
    have hfl : ({ Name := w1.chartName, Version := w1.chartVersion, RepoURL := w1.chartRepoUrl }
        : Chart) = flagsChart w := by
      simp [flagsChart, hn, hv, hu]
    cases hres : env.resolveChartVersion (flagsChart w) with
    | error e =>
      exact ⟨w1.log (.resolve (flagsChart w)), some e,
        by simp [renderChart, h0, populateFromFlags, chartSpec, hfl, hres],
        Or.inr ⟨rfl, Or.inl ⟨e, rfl, rfl, since_of_trace_eq (by simp [htr])⟩⟩⟩
    | ok cv =>
      cases hum : env.Unmarshal w.values with
      | error e =>
        exact ⟨w1.log (.resolve (flagsChart w)), some e,
          by simp [renderChart, h0, populateFromFlags, chartSpec, hfl, hres, hvals, hum],
          Or.inr ⟨rfl, Or.inr ⟨cv, rfl, Or.inl ⟨e, rfl, rfl,
            since_of_trace_eq (by simp [htr])⟩⟩⟩⟩
      | ok vals =>
        have hver : (flagsChart w).Name = w1.chartName ∧ (flagsChart w).RepoURL = w1.chartRepoUrl := by
          simp [flagsChart, hn, hu]
        obtain ⟨c, hcdef⟩ : ∃ c : ChartRenderConfig,
            c = { ChartSpec := { flagsChart w with Version := cv.Version },
                  ChartValues := some vals, Namespace := w1.namespace_,
                  ReleaseName := "foobar-foobar-0" } := ⟨_, rfl⟩
        have hpop : populateFromFlags env w1 c1 = (w1.log (.resolve (flagsChart w)), c, none) := by
          simp [populateFromFlags, chartSpec, hfl, hres, hvals, hum, hc1, hcdef, emptyConfig,
            hver.1, hver.2]
        have hcs : c.ReleaseName = "foobar-foobar-0" ∧ c.Namespace = w1.namespace_ ∧
            c.ChartValues = some vals := by
          subst hcdef
          exact ⟨rfl, rfl, rfl⟩
        obtain ⟨hcr, hcn, hcv⟩ := hcs
        cases hf : env.fetchChart c.ChartSpec with
        | error e =>
          exact ⟨((((w1.log (.resolve (flagsChart w))).log (.printConfig c)).log
              (.printValues (some vals))).log (.fetch c.ChartSpec)), some e,
            by simp [renderChart, h0, hpop, render, hf, hcv],
            Or.inr ⟨rfl, Or.inr ⟨cv, rfl, Or.inr ⟨vals, c, rfl, hcdef, Or.inl ⟨e, hf, rfl,
              since_of_trace_eq (by simp [htr])⟩⟩⟩⟩⟩
        | ok chart =>
          cases hR : env.Render chart "foobar-foobar-0" w1.namespace_ (some vals) with
          | error e =>
            exact ⟨(((((w1.log (.resolve (flagsChart w))).log (.printConfig c)).log
                (.printValues (some vals))).log (.fetch c.ChartSpec))).log
                (.render chart "foobar-foobar-0" w1.namespace_ (some vals)), some e,
              by simp [renderChart, h0, hpop, render, hf, hcv, hcr, hcn, hR],
              Or.inr ⟨rfl, Or.inr ⟨cv, rfl, Or.inr ⟨vals, c, rfl, hcdef, Or.inr ⟨chart, hf, Or.inl
                ⟨e, hR, rfl, since_of_trace_eq (by simp [htr])⟩⟩⟩⟩⟩⟩
          | ok docs =>
            exact ⟨((((((w1.log (.resolve (flagsChart w))).log (.printConfig c)).log
                (.printValues (some vals))).log (.fetch c.ChartSpec))).log
                (.render chart "foobar-foobar-0" w1.namespace_ (some vals))).log
                (.println (stringsJoin docs renderSeparator)), none,
              by simp [renderChart, h0, hpop, render, hf, hcv, hcr, hcn, hR],
              Or.inr ⟨rfl, Or.inr ⟨cv, rfl, Or.inr ⟨vals, c, rfl, hcdef, Or.inr ⟨chart, hf, Or.inr
                ⟨docs, hR, rfl, since_of_trace_eq (by simp [htr])⟩⟩⟩⟩⟩⟩

/-- C4: when the lookup of the Application (resp. Release) fails with `e`,
`populateFromApp` (resp. `populateFormRelease`) makes that one lookup and no other call,
returns `e` and leaves the configuration as it was; `renderChartFromApp` (resp.
`renderChartFromRel`) makes the lookup as soon as `newChartRenderConfig` and
`config.Load` have succeeded, and in every run in which the client obtained from
`config.Load` makes the failing lookup, the command returns `e` and the run contains no
call of the chart fetcher, none of the renderer, and no printing of rendered output. -/
theorem lookup_failure_propagates (env : Env) (w : World) (c : ChartRenderConfig)
    (client : ShipperClient) (ns name : String) (e : GoError) :
    (client.getApplication w.namespace_ w.appName = .error e →
      populateFromApp client w c =
        (w.log (.getApplication w.namespace_ w.appName), c, some e)) ∧
    (client.getRelease w.namespace_ w.releaseName = .error e →
      populateFormRelease client w c =
        (w.log (.getRelease w.namespace_ w.releaseName), c, some e)) ∧
    (env.Load w.kubeConfigFile w.managementClusterContext = .ok client →
      client.getApplication ns name = .error e →
      ∃ r, renderChartFromApp env w [name] = some r ∧
        ((newChartRenderConfig env { w with appName := name }).2.2 = none →
          Event.getApplication (newChartRenderConfig env { w with appName := name }).1.namespace_
            name ∈ r.1.since w) ∧
        (Event.getApplication ns name ∈ r.1.since w →
          r.2 = some e ∧
          ∀ ev ∈ r.1.since w,
            ev.isFetch = false ∧ ev.isRender = false ∧ ev.isPrintln = false)) ∧
    (env.Load w.kubeConfigFile w.managementClusterContext = .ok client →
      client.getRelease ns name = .error e →
      ∃ r, renderChartFromRel env w [name] = some r ∧
        ((newChartRenderConfig env { w with releaseName := name }).2.2 = none →
          Event.getRelease (newChartRenderConfig env { w with releaseName := name }).1.namespace_
            name ∈ r.1.since w) ∧
        (Event.getRelease ns name ∈ r.1.since w →
          r.2 = some e ∧
          ∀ ev ∈ r.1.since w,
            ev.isFetch = false ∧ ev.isRender = false ∧ ev.isPrintln = false)) := by
  refine ⟨?_, ?_, ?_, ?_⟩
  · intro h
    simp [populateFromApp, h]
  · intro h
    simp [populateFormRelease, h]
  · intro hl hg
    obtain ⟨w1, c1, r1, pre, h0, hpre, w', r, hrun, hcases⟩ := renderChartFromApp_run env w name
    refine ⟨(w', r), hrun, ?_, ?_⟩
    · intro hok
      rw [h0] at hok ⊢
      rcases hcases with ⟨e0, hr1, -, -⟩ | ⟨-, ⟨e0, hl', -, -⟩ | ⟨client', hl', h⟩⟩
      · rw [hr1] at hok
        cases hok
      · rw [hl] at hl'
        cases hl'
      · rcases h with ⟨e1, -, -, hs⟩ | ⟨app, -, ⟨e1, -, -, hs⟩ | ⟨chart, -, ⟨e1, -, -, hs⟩ |
          ⟨docs, -, -, hs⟩⟩⟩ <;>
        simp [hs]
    · rcases hcases with ⟨e0, -, hr, hs⟩ | ⟨-, ⟨e0, hl', hr, hs⟩ | ⟨client', hl', h⟩⟩
      · rcases hpre with rfl | ⟨-, rfl⟩ <;> simp [hs]
      · rcases hpre with rfl | ⟨-, rfl⟩ <;> simp [hs]
      · rw [hl] at hl'
        cases hl'
        rcases h with ⟨e1, hg', hr, hs⟩ | ⟨app, hg', ⟨e1, -, hr, hs⟩ | ⟨chart, -, ⟨e1, -, hr, hs⟩ |
          ⟨docs, -, hr, hs⟩⟩⟩ <;>
        rcases hpre with rfl | ⟨-, rfl⟩ <;>
        simp [hs, hr, Event.isFetch, Event.isRender, Event.isPrintln] <;>
        intro hns <;> subst hns <;> simp_all
  · intro hl hg
    obtain ⟨w1, c1, r1, pre, h0, hpre, w', r, hrun, hcases⟩ := renderChartFromRel_run env w name
    refine ⟨(w', r), hrun, ?_, ?_⟩
    · intro hok
      rw [h0] at hok ⊢
      rcases hcases with ⟨e0, hr1, -, -⟩ | ⟨-, ⟨e0, hl', -, -⟩ | ⟨client', hl', h⟩⟩
      · rw [hr1] at hok
        cases hok
      · rw [hl] at hl'
        cases hl'
      · rcases h with ⟨e1, -, -, hs⟩ | ⟨rel, -, ⟨e1, -, -, hs⟩ | ⟨chart, -, ⟨e1, -, -, hs⟩ |
          ⟨docs, -, -, hs⟩⟩⟩ <;>
        simp [hs]
    · rcases hcases with ⟨e0, -, hr, hs⟩ | ⟨-, ⟨e0, hl', hr, hs⟩ | ⟨client', hl', h⟩⟩
      · rcases hpre with rfl | ⟨-, rfl⟩ <;> simp [hs]
      · rcases hpre with rfl | ⟨-, rfl⟩ <;> simp [hs]
      · rw [hl] at hl'
        cases hl'
        rcases h with ⟨e1, hg', hr, hs⟩ | ⟨rel, hg', ⟨e1, -, hr, hs⟩ | ⟨chart, -, ⟨e1, -, hr, hs⟩ |
          ⟨docs, -, hr, hs⟩⟩⟩ <;>
        rcases hpre with rfl | ⟨-, rfl⟩ <;>
        simp [hs, hr, Event.isFetch, Event.isRender, Event.isPrintln] <;>
        intro hns <;> subst hns <;> simp_all

/-- Neither an Application nor a Release called `nope` exists: the lookup error comes back
from the populate functions and from both commands. -/
theorem lookup_failure_propagates_witness :
    populateFromApp demoClient demoWorldLookup demoConfig =
      (demoWorldLookup.log (.getApplication "prod" "nope"), demoConfig,
        some "applications not found") ∧
    populateFormRelease demoClient demoWorldLookup demoConfig =
      (demoWorldLookup.log (.getRelease "prod" "nope"), demoConfig,
        some "releases not found") ∧
    (∃ r, renderChartFromApp demoEnv demoWorld ["nope"] = some r ∧
      r.2 = some "applications not found") ∧
    (∃ r, renderChartFromRel demoEnv demoWorld ["nope"] = some r ∧
      r.2 = some "releases not found") := by
  refine ⟨(lookup_failure_propagates demoEnv demoWorldLookup demoConfig demoClient "prod" "nope"
      "applications not found").1 rfl,
    (lookup_failure_propagates demoEnv demoWorldLookup demoConfig demoClient "prod" "nope"
      "releases not found").2.1 rfl, ?_, ?_⟩
  · obtain ⟨r, hr, h⟩ := (lookup_failure_propagates demoEnv demoWorld demoConfig demoClient
      "prod" "nope" "applications not found").2.2.1 rfl rfl
    have hr2 : r = (renderChartFromApp demoEnv demoWorld ["nope"]).getD (demoWorld, none) := by
      rw [hr]; rfl
    refine ⟨r, hr, (h.2 ?_).1⟩
    rw [hr2]
    decide
  · obtain ⟨r, hr, h⟩ := (lookup_failure_propagates demoEnv demoWorld demoConfig demoClient
      "prod" "nope" "releases not found").2.2.2 rfl rfl
    have hr2 : r = (renderChartFromRel demoEnv demoWorld ["nope"]).getD (demoWorld, none) := by
      rw [hr]; rfl
    refine ⟨r, hr, (h.2 ?_).1⟩
    rw [hr2]
    decide

/-- C5: for the Application the lookup returns, `populateFromApp` returns no error and sets
`ChartSpec` and `ChartValues` to the application's template chart and template values and
`ReleaseName` to `<appName>-foobar-0`, with `Namespace` as it was; for the Release the
lookup returns, `populateFormRelease` sets `ChartSpec` and `ChartValues` to the release's
environment chart and values and `ReleaseName` to the requested release name, with
`Namespace` as it was.  In both, the only call made is the one `Get`, a read: nothing is
written back to the control plane, and the package variables are untouched. -/
theorem populate_from_object (w : World) (c : ChartRenderConfig) (client : ShipperClient) :
    (∀ app, client.getApplication w.namespace_ w.appName = .ok app →
      populateFromApp client w c =
        (w.log (.getApplication w.namespace_ w.appName),
          { ChartSpec := app.Spec.Template.Chart, ChartValues := app.Spec.Template.Values,
            Namespace := c.Namespace, ReleaseName := w.appName ++ "-foobar-0" },
          none)) ∧
    (∀ rel, client.getRelease w.namespace_ w.releaseName = .ok rel →
      populateFormRelease client w c =
        (w.log (.getRelease w.namespace_ w.releaseName),
          { ChartSpec := rel.Spec.Environment.Chart, ChartValues := rel.Spec.Environment.Values,
            Namespace := c.Namespace, ReleaseName := w.releaseName },
          none)) := by
  constructor
  · intro app h
    simp [populateFromApp, h, sprintfReleaseName_foobar]
  · intro rel h
    simp [populateFormRelease, h]

/-- The Application `bikerental` and the Release `bikerental-7abf46d4-0` fill the
configuration; the namespace `staging` already in it stays. -/
theorem populate_from_object_witness :
    (populateFromApp demoClient demoWorldFound { demoConfig with Namespace := "staging" }).2 =
      ({ ChartSpec := { Name := "demo", Version := "^1.0.0", RepoURL := demoRepoURL },
         ChartValues := some { doc := "replicas: 2" }, Namespace := "staging",
         ReleaseName := "bikerental-foobar-0" }, none) ∧
    (populateFormRelease demoClient demoWorldFound { demoConfig with Namespace := "staging" }).2 =
      ({ ChartSpec := { Name := "demo", Version := "1.2.0", RepoURL := demoRepoURL },
         ChartValues := some { doc := "replicas: 3" }, Namespace := "staging",
         ReleaseName := "bikerental-7abf46d4-0" }, none) :=
  ⟨congrArg Prod.snd ((populate_from_object demoWorldFound
      { demoConfig with Namespace := "staging" } demoClient).1 demoApp rfl),
   congrArg Prod.snd ((populate_from_object demoWorldFound
      { demoConfig with Namespace := "staging" } demoClient).2 demoRel rfl)⟩

/-! ## Where the fetched version comes from -/

/-- C6, as stated, fails on `renderChartFromApp`: for the Application `bikerental`, whose
template chart has the version constraint `^1.0.0`, the run succeeds, the fetcher is called
with version `^1.0.0`, and the resolver is not called at all. -/
theorem app_fetch_not_resolved :
    ∃ r, renderChartFromApp demoEnv demoWorld ["bikerental"] = some r ∧ r.2 = none ∧
      Event.fetch { Name := "demo", Version := "^1.0.0", RepoURL := demoRepoURL } ∈
        r.1.since demoWorld ∧
      (r.1.since demoWorld).filter Event.isResolve = [] ∧
      ¬ FetchedVersionsResolved demoEnv (r.1.since demoWorld) := by
  refine ⟨(renderChartFromApp demoEnv demoWorld ["bikerental"]).getD (demoWorld, none),
    by decide, by decide, by decide, by decide, ?_⟩
  intro h
  obtain ⟨id, cv, hmem, -, -⟩ :=
    h { Name := "demo", Version := "^1.0.0", RepoURL := demoRepoURL } (by decide)
  have hres : ∀ ev ∈ ((renderChartFromApp demoEnv demoWorld ["bikerental"]).getD
      (demoWorld, none)).1.since demoWorld, ev.isResolve = false := by decide
  simpa [Event.isResolve] using hres _ hmem

/-- C6, amended: on `renderChart` (from flags) the identity given by the flags is passed
to the version resolver first, and a chart spec reaches the chart fetcher only after that
call succeeded, carrying the version the resolver returned; `renderChartFromApp` and
`renderChartFromRel` never call the resolver, and the chart spec they hand to the fetcher
is the one stored in the looked-up Application template (resp. Release environment), as
it is. -/
theorem fetch_provenance (env : Env) (w : World) (args : List String) (name : String) :
    (FetchedVersionsResolved env ((renderChart env w args).1.since w) ∧
      ∀ ch, Event.fetch ch ∈ (renderChart env w args).1.since w →
        ∃ cv, env.resolveChartVersion (flagsChart w) = .ok cv ∧
          ch = { flagsChart w with Version := cv.Version } ∧
          ((renderChart env w args).1.since w).filter
              (fun ev => ev.isResolve || ev.isFetch) =
            [.resolve (flagsChart w), .fetch ch]) ∧
    (∃ r, renderChartFromApp env w [name] = some r ∧
      (∀ ev ∈ r.1.since w, ev.isResolve = false) ∧
      ∀ ch, Event.fetch ch ∈ r.1.since w →
        ∃ client ns app, env.Load w.kubeConfigFile w.managementClusterContext = .ok client ∧
          Event.getApplication ns name ∈ r.1.since w ∧
          client.getApplication ns name = .ok app ∧ ch = app.Spec.Template.Chart) ∧
    (∃ r, renderChartFromRel env w [name] = some r ∧
      (∀ ev ∈ r.1.since w, ev.isResolve = false) ∧
      ∀ ch, Event.fetch ch ∈ r.1.since w →
        ∃ client ns rel, env.Load w.kubeConfigFile w.managementClusterContext = .ok client ∧
          Event.getRelease ns name ∈ r.1.since w ∧
          client.getRelease ns name = .ok rel ∧ ch = rel.Spec.Environment.Chart) := by
  refine ⟨?_, ?_, ?_⟩
  · have key : ∀ ch, Event.fetch ch ∈ (renderChart env w args).1.since w →
        ∃ cv, env.resolveChartVersion (flagsChart w) = .ok cv ∧
          ch = { flagsChart w with Version := cv.Version } ∧
          ((renderChart env w args).1.since w).filter
              (fun ev => ev.isResolve || ev.isFetch) =
            [.resolve (flagsChart w), .fetch ch] := by
      obtain ⟨w1, c1, r1, pre, -, hpre, w', r, hrun, hcases⟩ := renderChart_run env w args
      rw [hrun]
      have hp : pre.filter (fun ev => ev.isResolve || ev.isFetch) = [] ∧
          ∀ ch, Event.fetch ch ∉ pre := by
        rcases hpre with rfl | ⟨-, rfl⟩ <;> simp [Event.isResolve, Event.isFetch]
      intro ch hch
      rcases hcases with ⟨e0, -, -, hs⟩ | ⟨-, ⟨e0, -, -, hs⟩ | ⟨cv, hres, ⟨e0, -, -, hs⟩ |
        ⟨vals, c, -, hc, ⟨e0, -, -, hs⟩ | ⟨chart, -, ⟨e0, -, -, hs⟩ | ⟨docs, -, -, hs⟩⟩⟩⟩⟩
      · simp [hs, hp.2] at hch
      · simp [hs, hp.2] at hch
      · simp [hs, hp.2] at hch
      · have hcc : c.ChartSpec = { flagsChart w with Version := cv.Version } := by rw [hc]
        simp only [hs] at hch ⊢
        simp [hp.2] at hch
        subst hch
        exact ⟨cv, hres, hcc, by rw [List.filter_append, hp.1]; rfl⟩
      · have hcc : c.ChartSpec = { flagsChart w with Version := cv.Version } := by rw [hc]
        simp only [hs] at hch ⊢
        simp [hp.2] at hch
        subst hch
        exact ⟨cv, hres, hcc, by rw [List.filter_append, hp.1]; rfl⟩
      · have hcc : c.ChartSpec = { flagsChart w with Version := cv.Version } := by rw [hc]
        simp only [hs] at hch ⊢
        simp [hp.2] at hch
        subst hch
        exact ⟨cv, hres, hcc, by rw [List.filter_append, hp.1]; rfl⟩
    refine ⟨?_, key⟩
    intro ch hch
    obtain ⟨cv, hres, hceq, hfil⟩ := key ch hch
    refine ⟨flagsChart w, cv, ?_, hres, by rw [hceq]⟩
    have : Event.resolve (flagsChart w) ∈ ((renderChart env w args).1.since w).filter
        (fun ev => ev.isResolve || ev.isFetch) := by
      rw [hfil]
      exact List.mem_cons_self _ _
    exact (List.mem_filter.mp this).1
  · obtain ⟨w1, c1, r1, pre, -, hpre, w', r, hrun, hcases⟩ := renderChartFromApp_run env w name
    refine ⟨(w', r), hrun, ?_⟩
    have hp : (∀ ev ∈ pre, ev.isResolve = false) ∧ ∀ ch, Event.fetch ch ∉ pre := by
      rcases hpre with rfl | ⟨-, rfl⟩ <;> simp [Event.isResolve]
    rcases hcases with ⟨e0, -, -, hs⟩ | ⟨-, ⟨e0, -, -, hs⟩ | ⟨client, hl, ⟨e0, -, -, hs⟩ |
      ⟨app, hg, ⟨e0, -, -, hs⟩ | ⟨chart, -, ⟨e0, -, -, hs⟩ | ⟨docs, -, -, hs⟩⟩⟩⟩⟩ <;>
    simp only [hs] <;>
    refine ⟨?_, ?_⟩ <;>
    first
    | (intro ev hev
       exact hp.1 ev hev)
    | (intro ev hev
       rcases List.mem_append.mp hev with hev | hev
       · exact hp.1 ev hev
       · simp only [List.mem_cons, List.mem_singleton, List.not_mem_nil, or_false] at hev
         rcases hev with rfl | rfl | rfl | rfl | rfl <;> rfl)
    | (intro ch hch
       simp [hp.2] at hch
       done)
    | (intro ch hch
       simp [hp.2] at hch
       subst hch
       exact ⟨client, w1.namespace_, app, hl, by simp, hg, rfl⟩)
  · obtain ⟨w1, c1, r1, pre, -, hpre, w', r, hrun, hcases⟩ := renderChartFromRel_run env w name
    refine ⟨(w', r), hrun, ?_⟩
    have hp : (∀ ev ∈ pre, ev.isResolve = false) ∧ ∀ ch, Event.fetch ch ∉ pre := by
      rcases hpre with rfl | ⟨-, rfl⟩ <;> simp [Event.isResolve]
    rcases hcases with ⟨e0, -, -, hs⟩ | ⟨-, ⟨e0, -, -, hs⟩ | ⟨client, hl, ⟨e0, -, -, hs⟩ |
      ⟨rel, hg, ⟨e0, -, -, hs⟩ | ⟨chart, -, ⟨e0, -, -, hs⟩ | ⟨docs, -, -, hs⟩⟩⟩⟩⟩ <;>
    simp only [hs] <;>
    refine ⟨?_, ?_⟩ <;>
    first
    | (intro ev hev
       exact hp.1 ev hev)
    | (intro ev hev
       rcases List.mem_append.mp hev with hev | hev
       · exact hp.1 ev hev
       · simp only [List.mem_cons, List.mem_singleton, List.not_mem_nil, or_false] at hev
         rcases hev with rfl | rfl | rfl | rfl | rfl <;> rfl)
    | (intro ch hch
       simp [hp.2] at hch
       done)
    | (intro ch hch
       simp [hp.2] at hch
       subst hch
       exact ⟨client, w1.namespace_, rel, hl, by simp, hg, rfl⟩)

/-- From flags the resolver call precedes the fetch of the resolved `1.2.0`; from the
Application `bikerental` the fetched chart is the template chart, constraint included. -/
theorem fetch_provenance_witness :
    ((renderChart demoEnv demoWorld []).1.since demoWorld).filter
        (fun ev => ev.isResolve || ev.isFetch) =
      [.resolve { Name := "demo", Version := "^1.0.0", RepoURL := demoRepoURL },
       .fetch { Name := "demo", Version := "1.2.0", RepoURL := demoRepoURL }] ∧
    (∃ r, renderChartFromApp demoEnv demoWorld ["bikerental"] = some r ∧
      ∀ ev ∈ r.1.since demoWorld, ev.isResolve = false) := by
  constructor
  · obtain ⟨cv, -, -, h⟩ := (fetch_provenance demoEnv demoWorld [] "bikerental").1.2
      { Name := "demo", Version := "1.2.0", RepoURL := demoRepoURL } (by decide)
    exact h
  · obtain ⟨r, hr, h, -⟩ := (fetch_provenance demoEnv demoWorld [] "bikerental").2.1
    exact ⟨r, hr, h⟩

/-! ## The rendered text -/

theorem foldl_join_eq (sep : String) (rest : List String) (e : String) :
    rest.foldl (fun b s => b ++ sep ++ s) e = e ++ separated sep rest := by
  induction rest generalizing e with
  | nil => simp [separated]
  | cons d ds ih =>
    rw [List.foldl_cons, ih, separated]
    simp only [String.append_assoc]

theorem stringsJoin_cons (sep d : String) (rest : List String) :
    stringsJoin (d :: rest) sep = d ++ separated sep rest := by
  cases rest with
  | nil => simp [stringsJoin, separated]
  | cons d2 ds =>
    simp only [stringsJoin, foldl_join_eq]

theorem separated_length (sep : String) (ds : List String) :
    (separated sep ds).length = (ds.map String.length).sum + sep.length * ds.length := by
  induction ds with
  | nil => simp [separated]
  | cons d ds ih =>
    simp only [separated, String.length_append, ih, List.map_cons, List.sum_cons,
      List.length_cons]
    ring

theorem intercalate_go_eq (sep : String) (rest : List String) (acc : String) :
    String.intercalate.go acc sep rest = acc ++ separated sep rest := by
  induction rest generalizing acc with
  | nil => simp [String.intercalate.go, separated]
  | cons d ds ih => simp [String.intercalate.go, separated, ih, String.append_assoc]

/-- C8: when fetch and rendering succeed with the documents `docs`, `render` returns, with
no error, the documents in their order joined by the separator made of the characters
percent, `s`, newline, three hyphens, newline: the empty string for no document, the
document itself for one, and in general the first document followed, for each of the
`n - 1` further documents, by the separator (with its literal `%s`) and that document. -/
theorem render_joins_documents (env : Env) (w : World) (c : ChartRenderConfig)
    (chart : HelmChart) (docs : List String)
    (hf : env.fetchChart c.ChartSpec = .ok chart)
    (hR : env.Render chart c.ReleaseName c.Namespace c.ChartValues = .ok docs) :
    (render env w c).2.2 = none ∧
    (render env w c).2.1 = String.intercalate renderSeparator docs ∧
    renderSeparator.data = ['%', 's', '\n', '-', '-', '-', '\n'] ∧
    (docs = [] → (render env w c).2.1 = "") ∧
    (∀ d, docs = [d] → (render env w c).2.1 = d) ∧
    (∀ d rest, docs = d :: rest →
      (render env w c).2.1 = d ++ separated renderSeparator rest ∧
      (render env w c).2.1.length =
        (docs.map String.length).sum + 7 * (docs.length - 1)) := by
  have hr : (render env w c).2 = (stringsJoin docs renderSeparator, none) := by
    simp [render, hf, hR]
  rw [hr]
  refine ⟨rfl, ?_, by decide, ?_, ?_, ?_⟩
  · cases docs with
    | nil => rfl
    | cons d rest =>
      simp only [stringsJoin_cons, String.intercalate, intercalate_go_eq]
  · rintro rfl
    rfl
  · rintro d rfl
    rfl
  · rintro d rest rfl
    refine ⟨stringsJoin_cons _ _ _, ?_⟩
    have hlen : renderSeparator.length = 7 := by decide
    simp only [stringsJoin_cons, String.length_append, separated_length, hlen, List.map_cons,
      List.sum_cons, List.length_cons, Nat.add_sub_cancel]
    ring

/-- Two documents come back with one separator, literal `%s` included, between them. -/
theorem render_joins_documents_witness :
    demoEnv.fetchChart demoConfig.ChartSpec = .ok demoArchive ∧
    demoEnv.Render demoArchive demoConfig.ReleaseName demoConfig.Namespace
        demoConfig.ChartValues = .ok ["kind: Service r-0", "kind: Deployment prod"] ∧
    (render demoEnv demoWorld demoConfig).2.1 =
      "kind: Service r-0" ++ separated "%s\n---\n" ["kind: Deployment prod"] ∧
    (render demoEnv demoWorld demoConfig).2.1 =
      "kind: Service r-0%s\n---\nkind: Deployment prod" :=
  ⟨rfl, rfl,
    ((render_joins_documents demoEnv demoWorld demoConfig demoArchive
      ["kind: Service r-0", "kind: Deployment prod"] rfl rfl).2.2.2.2.2 _ _ rfl).1,
    by decide⟩

/-! ## `populateFromFlags` -/

/-- C9: `populateFromFlags` leaves the configuration untouched only when resolution fails.
If the resolver fails with `e`, `e` is returned and every field is as before; if the
resolver succeeds and the `--values` text does not parse, the parse error is returned with
`ChartSpec` already overwritten by the resolved chart, `ChartValues`, `ReleaseName` and
`Namespace` as before; if both succeed, `ChartSpec` is the resolved chart, `ChartValues`
the parsed values, `ReleaseName` is `foobar-foobar-0` and `Namespace` is as before. -/
theorem populateFromFlags_outcomes (env : Env) (w : World) (c : ChartRenderConfig) :
    (∀ e, env.resolveChartVersion (flagsChart w) = .error e →
      (populateFromFlags env w c).2 = (c, some e)) ∧
    (∀ cv e, env.resolveChartVersion (flagsChart w) = .ok cv →
      env.Unmarshal w.values = .error e →
      (populateFromFlags env w c).2 =
        ({ ChartSpec := { flagsChart w with Version := cv.Version },
           ChartValues := c.ChartValues, Namespace := c.Namespace,
           ReleaseName := c.ReleaseName }, some e)) ∧
    (∀ cv vals, env.resolveChartVersion (flagsChart w) = .ok cv →
      env.Unmarshal w.values = .ok vals →
      (populateFromFlags env w c).2 =
        ({ ChartSpec := { flagsChart w with Version := cv.Version },
           ChartValues := some vals, Namespace := c.Namespace,
           ReleaseName := "foobar-foobar-0" }, none)) := by
  refine ⟨?_, ?_, ?_⟩
  · intro e h
    simp only [flagsChart] at h
    simp [populateFromFlags, chartSpec, h]
  · intro cv e h hu
    simp only [flagsChart] at h
    simp [populateFromFlags, chartSpec, h, hu, flagsChart]
  · intro cv vals h hu
    simp only [flagsChart] at h
    simp [populateFromFlags, chartSpec, h, hu, flagsChart]

/-- With no match the empty configuration comes back as it was; with an unparsable
`--values` text the error comes back with the resolved chart already stored; with good
flags all three fields are set. -/
theorem populateFromFlags_outcomes_witness :
    (populateFromFlags demoEnv demoWorldNoMatch emptyConfig).2 =
      (emptyConfig, some "NoMatchingVersion") ∧
    (populateFromFlags demoEnv demoWorldBadValues emptyConfig).2 =
      ({ ChartSpec := { Name := "demo", Version := "1.2.0", RepoURL := demoRepoURL },
         ChartValues := none, Namespace := "", ReleaseName := "" },
        some "yaml: did not find expected node") ∧
    (populateFromFlags demoEnv demoWorld { emptyConfig with Namespace := "prod" }).2 =
      ({ ChartSpec := { Name := "demo", Version := "1.2.0", RepoURL := demoRepoURL },
         ChartValues := some { doc := "replicas: 2" }, Namespace := "prod",
         ReleaseName := "foobar-foobar-0" }, none) :=
  ⟨(populateFromFlags_outcomes demoEnv demoWorldNoMatch emptyConfig).1 "NoMatchingVersion" rfl,
   (populateFromFlags_outcomes demoEnv demoWorldBadValues emptyConfig).2.1
      { Name := "demo", Version := "1.2.0", URL := "demo-1.2.0.tgz" }
      "yaml: did not find expected node" rfl rfl,
   (populateFromFlags_outcomes demoEnv demoWorld { emptyConfig with Namespace := "prod" }).2.2
      { Name := "demo", Version := "1.2.0", URL := "demo-1.2.0.tgz" }
      { doc := "replicas: 2" } rfl rfl⟩

/-! ## The namespace -/

/-- The successful outcome of `newChartRenderConfig`: the flag value if there is one,
else the kubeconfig namespace, in the configuration and in the package variable. -/
theorem newChartRenderConfig_ok (env : Env) (w : World) (cc : KubeClientConfig)
    (hcc : env.ClientConfig w.kubeConfigFile w.managementClusterContext = .ok cc)
    (hns : w.namespace_ = "" → cc.Namespace.2 = none) :
    ∃ w1, newChartRenderConfig env w =
        (w1, { emptyConfig with
                Namespace := if w.namespace_ = "" then cc.Namespace.1 else w.namespace_ }, none) ∧
      w1.namespace_ = (if w.namespace_ = "" then cc.Namespace.1 else w.namespace_) ∧
      (w.namespace_ ≠ "" → Event.clientNamespace ∉ w1.since w) := by
  rcases newChartRenderConfig_cases env w with ⟨e0, hc0, -⟩ | ⟨cc0, hc0, hn, h0⟩ |
    ⟨cc0, e0, hc0, hn, he, -⟩ | ⟨cc0, hc0, hn, -, h0⟩
  · rw [hcc] at hc0
    cases hc0
  · rw [hcc] at hc0
    cases hc0
    refine ⟨_, by rw [h0, if_neg hn], by rw [if_neg hn]; rfl, fun _ => ?_⟩
    simp [World.since]
  · rw [hcc] at hc0
    cases hc0
    rw [hns hn] at he
    cases he
  · rw [hcc] at hc0
    cases hc0
    exact ⟨_, by rw [h0, if_pos hn], by rw [if_pos hn], fun h => absurd hn h⟩

/-- C10: if loading the client config fails, or the kubeconfig namespace is needed and
cannot be read, `newChartRenderConfig` returns that error and a configuration with an
empty `Namespace`.  When it succeeds, the namespace `N` it puts into the configuration and
into the package variable is the `-n` flag value if that is non-empty (the kubeconfig
namespace is then not asked for) and the kubeconfig namespace otherwise; in every run of
`renderChartFromApp` and `renderChartFromRel` the lookup is made in `N` for the given
name, and the renderer is called only after that lookup and is handed `N`. -/
theorem namespace_consistency (env : Env) (w : World) (name : String) :
    (∀ e, env.ClientConfig w.kubeConfigFile w.managementClusterContext = .error e →
      (newChartRenderConfig env w).2.2 = some e ∧
      (newChartRenderConfig env w).2.1.Namespace = "") ∧
    (∀ cc e, env.ClientConfig w.kubeConfigFile w.managementClusterContext = .ok cc →
      w.namespace_ = "" → cc.Namespace.2 = some e →
      (newChartRenderConfig env w).2.2 = some e ∧
      (newChartRenderConfig env w).2.1.Namespace = "") ∧
    (∀ cc, env.ClientConfig w.kubeConfigFile w.managementClusterContext = .ok cc →
      (w.namespace_ = "" → cc.Namespace.2 = none) →
      ∃ N, N = (if w.namespace_ = "" then cc.Namespace.1 else w.namespace_) ∧
        (newChartRenderConfig env w).2.2 = none ∧
        (newChartRenderConfig env w).2.1.Namespace = N ∧
        (newChartRenderConfig env w).1.namespace_ = N ∧
        (w.namespace_ ≠ "" → Event.clientNamespace ∉ (newChartRenderConfig env w).1.since w) ∧
        (∃ r, renderChartFromApp env w [name] = some r ∧
          (∀ ns n, Event.getApplication ns n ∈ r.1.since w → ns = N ∧ n = name) ∧
          (∀ chart rn ns vals, Event.render chart rn ns vals ∈ r.1.since w →
            ns = N ∧ Event.getApplication N name ∈ r.1.since w) ∧
          (w.namespace_ ≠ "" → Event.clientNamespace ∉ r.1.since w)) ∧
        (∃ r, renderChartFromRel env w [name] = some r ∧
          (∀ ns n, Event.getRelease ns n ∈ r.1.since w → ns = N ∧ n = name) ∧
          (∀ chart rn ns vals, Event.render chart rn ns vals ∈ r.1.since w →
            ns = N ∧ Event.getRelease N name ∈ r.1.since w) ∧
          (w.namespace_ ≠ "" → Event.clientNamespace ∉ r.1.since w))) := by
  refine ⟨?_, ?_, ?_⟩
  · intro e h
    simp [newChartRenderConfig, h, emptyConfig]
  · intro cc e h hn he
    simp [newChartRenderConfig, h, hn, he, emptyConfig]
  · intro cc hcc hns
    obtain ⟨w1, h1, hN, hcn⟩ := newChartRenderConfig_ok env w cc hcc hns
    refine ⟨_, rfl, by rw [h1], by rw [h1], by rw [h1]; exact hN, by rw [h1]; exact hcn, ?_, ?_⟩
    · obtain ⟨wa, ha, haN, -⟩ := newChartRenderConfig_ok env { w with appName := name } cc hcc hns
      obtain ⟨w1', c1, r1, pre, h0, hpre, w', r, hrun, hcases⟩ := renderChartFromApp_run env w name
      rw [ha] at h0
      cases h0
      have haN' : wa.namespace_ = (if w.namespace_ = "" then cc.Namespace.1 else w.namespace_) :=
        haN
      rw [← haN']
      refine ⟨(w', r), hrun, ?_⟩
      rcases hcases with ⟨e0, h, -, -⟩ | ⟨-, ⟨e0, -, -, hs⟩ | ⟨client, hl, ⟨e0, -, -, hs⟩ |
        ⟨app, hg, ⟨e0, -, -, hs⟩ | ⟨chart, -, ⟨e0, -, -, hs⟩ | ⟨docs, -, -, hs⟩⟩⟩⟩⟩
      · cases h
      all_goals
        rcases hpre with rfl | ⟨hemp, rfl⟩ <;>
        simp [hs] <;> (try intros) <;> simp_all
    · obtain ⟨wa, ha, haN, -⟩ :=
        newChartRenderConfig_ok env { w with releaseName := name } cc hcc hns
      obtain ⟨w1', c1, r1, pre, h0, hpre, w', r, hrun, hcases⟩ := renderChartFromRel_run env w name
      rw [ha] at h0
      cases h0
      have haN' : wa.namespace_ = (if w.namespace_ = "" then cc.Namespace.1 else w.namespace_) :=
        haN
      rw [← haN']
      refine ⟨(w', r), hrun, ?_⟩
      rcases hcases with ⟨e0, h, -, -⟩ | ⟨-, ⟨e0, -, -, hs⟩ | ⟨client, hl, ⟨e0, -, -, hs⟩ |
        ⟨rel, hg, ⟨e0, -, -, hs⟩ | ⟨chart, -, ⟨e0, -, -, hs⟩ | ⟨docs, -, -, hs⟩⟩⟩⟩⟩
      · cases h
      all_goals
        rcases hpre with rfl | ⟨hemp, rfl⟩ <;>
        simp [hs] <;> (try intros) <;> simp_all

/-- Without `-n` the kubeconfig namespace `prod` is used, with `-n staging` the flag is;
without a kubeconfig the error comes back with an empty namespace. -/
theorem namespace_consistency_witness :
    (newChartRenderConfig demoEnvNoKube demoWorld).2.2 = some "no kubeconfig" ∧
    (newChartRenderConfig demoEnvNoKube demoWorld).2.1.Namespace = "" ∧
    (newChartRenderConfig demoEnv demoWorld).2.1.Namespace = "prod" ∧
    (newChartRenderConfig demoEnv demoWorldStaging).2.1.Namespace = "staging" ∧
    Event.clientNamespace ∉ (newChartRenderConfig demoEnv demoWorldStaging).1.since
      demoWorldStaging := by
  have h1 := (namespace_consistency demoEnvNoKube demoWorld "bikerental").1 "no kubeconfig" rfl
  obtain ⟨N, hN, -, hc, -, -, -, -⟩ :=
    (namespace_consistency demoEnv demoWorld "bikerental").2.2 { Namespace := ("prod", none) } rfl
      (fun _ => rfl)
  obtain ⟨M, hM, -, hd, -, hnot, -, -⟩ :=
    (namespace_consistency demoEnv demoWorldStaging "bikerental").2.2
      { Namespace := ("prod", none) } rfl (fun _ => rfl)
  exact ⟨h1.1, h1.2, hc.trans (hN.trans (by decide)), hd.trans (hM.trans (by decide)),
    hnot (by decide)⟩

end Shipperctl
